import Mathlib

/-!
Shallow embedding of the email-classification pipeline
(`app/config.py`, `app/models.py`, `app/services/similarity_matcher.py`,
`app/llm/chains.py`, `app/database/vector_store.py`,
`app/services/email_processor.py`).

Floats are modelled as rationals, Python `None`-able values as `Option`,
Python dicts produced by the repository itself as structures whose fields
are the keys the repository writes, and exceptions raised by external
collaborators as `Option` results of capability functions.
-/

namespace EmailApp

/-! ## Configuration (`app/config.py`, class `Settings`)

Only the fields consumed by the embedded code are carried.  Values are the
defaults constructed by `settings = Settings()` in `config.py`. -/

structure Settings where
  confidence_threshold : ℚ
  exact_domain_weight : ℚ
  similar_domain_weight : ℚ
  default_domain_weight : ℚ
  max_email_length : Nat

def settings : Settings :=
  { confidence_threshold := 17/20   -- 0.85
    exact_domain_weight := 1        -- 1.0
    similar_domain_weight := 4/5    -- 0.8
    default_domain_weight := 1/2    -- 0.5
    max_email_length := 10000 }

/-! ## Data model (`app/models.py`) -/

inductive EmailCategory where
  | marketing
  | transactional
  | survey
  | personal
  | customer_support
deriving DecidableEq, Repr

/-- The `.value` string of each `EmailCategory` member (a `str` enum). -/
def EmailCategory.value : EmailCategory → String
  | .marketing => "marketing"
  | .transactional => "transactional"
  | .survey => "survey"
  | .personal => "personal"
  | .customer_support => "customer_support"

structure EmailInput where
  from_email : String
  subject : String
  html_content : Option String
  text_content : Option String
deriving DecidableEq, Repr

structure BusinessEntity where
  name : String
  website : Option String := none
  dpo_email : Option String := none
  industry : Option String := none
  location : Option String := none
deriving DecidableEq, Repr

structure ExtractedData where
  email : Option (List String) := none
  phone_number : Option (List String) := none
  credit_card_number : Option (List String) := none
deriving DecidableEq, Repr

structure EmailMetadata where
  sender_domain : String
  footer_text : Option String := none
  urls : List String := []
deriving DecidableEq, Repr

/-- Metadata dict written into the vector store for each document
(`doc_metadata` in `VectorStoreService.add_email_embedding`); searches
return these same dicts back. -/
structure DocMetadata where
  sender_domain : String
  email_category : String
  business_name : String
  business_website : Option String := none
  business_industry : Option String := none
  business_location : Option String := none
  dpo_email : Option String := none
  confidence_score : ℚ := 0
  urls_count : Nat := 0
  has_footer : Bool := false
deriving DecidableEq, Repr

structure VectorMatch where
  similarity_score : ℚ
  domain_weight : ℚ
  confidence_score : ℚ
  metadata : DocMetadata
deriving DecidableEq, Repr

structure ProcessedEmail where
  email_category : EmailCategory
  business_entity : BusinessEntity
  data : ExtractedData
  confidence_score : ℚ
  metadata : Option EmailMetadata := none
  processed_at : Option String := none
deriving DecidableEq, Repr

/-- Typed LLM output (`EmailClassificationResult` in `app/llm/chains.py`). -/
structure EmailClassificationResult where
  email_category : EmailCategory
  business_entity : BusinessEntity
  data : ExtractedData
  confidence_score : ℚ
deriving DecidableEq, Repr

/-! ## String helpers mirroring the Python primitives used by the source

All of them recurse over `String.data` (character lists) so that they
evaluate on concrete inputs; the semantics on the ASCII inputs the source
manipulates agree with the corresponding Python methods. -/

/-- `pat` occurs as a contiguous sublist of `hay` (Python `pat in hay`
for strings, on the character level). -/
def hasSubstring (hay pat : List Char) : Bool :=
  match hay with
  | [] => pat.isEmpty
  | _ :: t => pat.isPrefixOf hay || hasSubstring t pat

/-- Python's `sub in s` substring test. -/
def strContains (s sub : String) : Bool :=
  hasSubstring s.data sub.data

/-- Python's `str.lower` (ASCII). -/
def py_lower (s : String) : String :=
  String.mk (s.data.map Char.toLower)

/-- Python's `str.strip`: whitespace removed from both ends. -/
def py_strip (s : String) : String :=
  String.mk (((s.data.dropWhile Char.isWhitespace).reverse.dropWhile Char.isWhitespace).reverse)

/-- Python's `str.capitalize`: first character upper-cased, the rest
lower-cased. -/
def py_capitalize (s : String) : String :=
  match s.data with
  | [] => ""
  | c :: rest => String.mk (c.toUpper :: rest.map Char.toLower)

/-- Split a character list at every occurrence of the character `sep`
(Python `str.split(sep)` for a one-character separator: no collapsing of
empty fields, `[""]` on the empty string). -/
def splitOnChar (sep : Char) : List Char → List (List Char)
  | [] => [[]]
  | c :: t =>
    if c = sep then
      [] :: splitOnChar sep t
    else
      match splitOnChar sep t with
      | [] => [[c]]
      | h :: r => (c :: h) :: r

/-- Python's `str.split(sep)` for a one-character separator. -/
def py_split (s : String) (sep : Char) : List String :=
  (splitOnChar sep s.data).map String.mk

/-- Python's `str.startswith`. -/
def py_startswith (s pre : String) : Bool :=
  pre.data.isPrefixOf s.data

/-- Python's `str.endswith`. -/
def py_endswith (s suf : String) : Bool :=
  suf.data.isSuffixOf s.data

/-- Python's slice `s[n:]` (drop the first `n` characters). -/
def py_drop (s : String) (n : Nat) : String :=
  String.mk (s.data.drop n)

/-- Python's slice `s[:n]` (keep the first `n` characters). -/
def py_take (s : String) (n : Nat) : String :=
  String.mk (s.data.take n)

/-- Python truthiness of an optional string (`None` and `""` are falsy). -/
def truthyStr : Option String → Bool
  | none => false
  | some s => !(s == "")

/-! ## Similarity matcher (`app/services/similarity_matcher.py`) -/

/-- Raw row handed back by the ChromaDB query inside
`VectorStoreService.search_similar_emails` (id, document, metadata,
distance), before the service derives the similarity field. -/
structure ChromaRow where
  id : String
  document : String
  metadata : DocMetadata
  distance : ℚ
deriving DecidableEq, Repr

/-- One match dict built by `search_similar_emails`:
`similarity = 1 - distance`. -/
structure SearchHit where
  id : String
  document : String
  metadata : DocMetadata
  distance : ℚ
  similarity : ℚ
deriving DecidableEq, Repr

/-- `search_similar_emails` result construction (vector_store.py lines
269-279): copies the row and sets `similarity = 1 - distance`. -/
def row_to_hit (r : ChromaRow) : SearchHit :=
  { id := r.id
    document := r.document
    metadata := r.metadata
    distance := r.distance
    similarity := 1 - r.distance }

def search_results_to_hits (rows : List ChromaRow) : List SearchHit :=
  rows.map row_to_hit

/-- `SimilarityMatcher._extract_root_domain`: last two dot-separated
labels, or the whole domain if it has fewer than two. -/
def extract_root_domain (domain : String) : String :=
  let parts := py_split domain '.'
  if parts.length ≥ 2 then
    String.intercalate "." (parts.drop (parts.length - 2))
  else
    domain

/-- Mail-infrastructure tokens checked by `_are_domains_similar`. -/
def common_prefixes : List String := ["mail", "email", "smtp", "noreply", "no-reply"]

/-- `SimilarityMatcher._are_domains_similar`: root domains equal, one a
dot-suffix of the other, or one equal to the other preceded by a
mail-infrastructure token and a dot.  The source's early-return chain is
rendered as a disjunction. -/
def are_domains_similar (domain1 domain2 : String) : Bool :=
  (extract_root_domain domain1 == extract_root_domain domain2) ||
  (py_endswith domain1 ("." ++ domain2) || py_endswith domain2 ("." ++ domain1)) ||
  common_prefixes.any (fun p =>
    (py_startswith domain1 (p ++ ".") && (py_drop domain1 (p.length + 1) == domain2)) ||
    (py_startswith domain2 (p ++ ".") && (py_drop domain2 (p.length + 1) == domain1)))

/-- `SimilarityMatcher._calculate_domain_weight`.  Python's
`not query_domain or not candidate_domain` is the empty-string test. -/
def calculate_domain_weight (query_domain candidate_domain : String) : ℚ :=
  if query_domain = "" ∨ candidate_domain = "" then
    settings.default_domain_weight
  else
    let q := py_strip (py_lower query_domain)
    let c := py_strip (py_lower candidate_domain)
    if q = c then settings.exact_domain_weight
    else if are_domains_similar q c then settings.similar_domain_weight
    else settings.default_domain_weight

/-- `SimilarityMatcher._calculate_confidence_score`.  The Python body can
only fail via exceptions, which the pure translation has none of, so the
`Optional` wrapper is dropped. -/
def calculate_confidence_score (candidate : SearchHit) (query_metadata : EmailMetadata) : VectorMatch :=
  let similarity_score := candidate.similarity
  let candidate_metadata := candidate.metadata
  let candidate_domain := candidate_metadata.sender_domain
  let domain_weight := calculate_domain_weight query_metadata.sender_domain candidate_domain
  let confidence_score := similarity_score * domain_weight
  { similarity_score := similarity_score
    domain_weight := domain_weight
    confidence_score := confidence_score
    metadata := candidate_metadata }

/-- Python's `max(scored, key=lambda x: x.confidence_score)`: keeps the
current best and replaces it only when a later element is strictly
greater, hence returns the first maximal element. -/
def pick_best (h : VectorMatch) (t : List VectorMatch) : VectorMatch :=
  t.foldl (fun best x => if x.confidence_score > best.confidence_score then x else best) h

/-- `SimilarityMatcher.find_best_match`.  `vector_store = none` models the
constructor having failed to build a `VectorStoreService` (the matcher then
skips the search); the stored search capability maps a query to the raw
ChromaDB rows which `search_similar_emails` turns into hits. -/
def find_best_match
    (vector_store : Option (String → EmailMetadata → List ChromaRow))
    (email_content : String) (metadata : EmailMetadata) : Option VectorMatch :=
  match vector_store with
  | none => none
  | some query_rows =>
    let candidates := search_results_to_hits (query_rows email_content metadata)
    match candidates.map (fun c => calculate_confidence_score c metadata) with
    | [] => none
    | h :: t => some (pick_best h t)

/-- `SimilarityMatcher.is_confident_match`: strict threshold test. -/
def is_confident_match (vector_match : VectorMatch) : Bool :=
  decide (vector_match.confidence_score > settings.confidence_threshold)

/-- `SimilarityMatcher.extract_business_entity_from_match`: the stored
metadata fields are read back verbatim. -/
def extract_business_entity_from_match (vector_match : VectorMatch) : BusinessEntity :=
  { name := vector_match.metadata.business_name
    website := vector_match.metadata.business_website
    dpo_email := vector_match.metadata.dpo_email
    industry := vector_match.metadata.business_industry
    location := vector_match.metadata.business_location }

/-- Parsing a stored category string back into the enum
(`EmailCategory(category_str)`), `none` for the `ValueError` case. -/
def email_category_from_string (s : String) : Option EmailCategory :=
  if s = "marketing" then some .marketing
  else if s = "transactional" then some .transactional
  else if s = "survey" then some .survey
  else if s = "personal" then some .personal
  else if s = "customer_support" then some .customer_support
  else none

/-- `SimilarityMatcher.get_email_category_from_match`: invalid stored
categories default to `personal`. -/
def get_email_category_from_match (vector_match : VectorMatch) : EmailCategory :=
  (email_category_from_string vector_match.metadata.email_category).getD .personal

/-! ## Classification chain (`app/llm/chains.py`, `EmailClassificationChain`) -/

def marketing_keywords : List String :=
  ["unsubscribe", "newsletter", "promotion", "offer", "sale", "discount"]

def transactional_keywords : List String :=
  ["order", "receipt", "confirmation", "invoice", "payment", "account"]

def survey_keywords : List String :=
  ["survey", "feedback", "questionnaire", "rate", "review"]

def support_keywords : List String :=
  ["support", "help", "ticket", "issue", "problem", "assistance"]

/-- `any(keyword in content_lower for keyword in keywords)`. -/
def contains_any (content_lower : String) (keywords : List String) : Bool :=
  keywords.any fun k => strContains content_lower k

/-- `EmailClassificationChain._heuristic_classification`: first matching
keyword bucket, in the source's order; `metadata` is accepted but, as in
the source, unused. -/
def heuristic_classification (content : String) (metadata : EmailMetadata) : EmailCategory :=
  let content_lower := py_lower content
  if contains_any content_lower marketing_keywords then .marketing
  else if contains_any content_lower transactional_keywords then .transactional
  else if contains_any content_lower survey_keywords then .survey
  else if contains_any content_lower support_keywords then .customer_support
  else .personal

/-- `EmailClassificationChain._extract_company_name_heuristic`:
capitalized second-to-last dot-separated label of the sender domain, or
"Unknown Company" when there are fewer than two labels. -/
def extract_company_name_heuristic (content : String) (metadata : EmailMetadata) : String :=
  let domain_parts := py_split metadata.sender_domain '.'
  if domain_parts.length ≥ 2 then
    py_capitalize (domain_parts.getD (domain_parts.length - 2) "")
  else
    "Unknown Company"

/-- `EmailClassificationChain._create_fallback_result` (the inner
exception branch producing the 0.1 ultimate fallback is dead in the pure
translation). -/
def create_fallback_result (email_content : String) (metadata : EmailMetadata) : ProcessedEmail :=
  { email_category := heuristic_classification email_content metadata
    business_entity :=
      { name := extract_company_name_heuristic email_content metadata
        website := metadata.urls.head?
        industry := none
        location := none
        dpo_email := none }
    data := {}
    confidence_score := 3/10
    metadata := some metadata }

/-- `EmailClassificationChain.classify_email`: the LLM invocation is the
capability input, `none` modelling any provider/parsing failure, which the
source answers with the fallback result. -/
def classify_email (llm_result : Option EmailClassificationResult)
    (email_content : String) (metadata : EmailMetadata) : ProcessedEmail :=
  match llm_result with
  | some result =>
    { email_category := result.email_category
      business_entity := result.business_entity
      data := result.data
      confidence_score := result.confidence_score
      metadata := some metadata }
  | none => create_fallback_result email_content metadata

/-! ## DPO extraction chain (`app/llm/chains.py`, `DPOExtractionChain`) -/

/-- Character class of the regex fragment `[a-zA-Z0-9._%+-]`. -/
def isLocalChar (c : Char) : Bool :=
  c.isAlpha || c.isDigit || c == '.' || c == '_' || c == '%' || c == '+' || c == '-'

/-- Character class of the regex fragment `[a-zA-Z0-9.-]`. -/
def isDomainChar (c : Char) : Bool :=
  c.isAlpha || c.isDigit || c == '.' || c == '-'

/-- Recognizer for the regex fragment `[a-zA-Z0-9.-]+\.[a-zA-Z]{2,}$`:
since the leading class contains the dot and every letter, a string
matches exactly when it contains a dot, everything before the final dot
is a non-empty string over the class, and after the final dot come at
least two letters. -/
def matches_domain_part (r : String) : Bool :=
  let parts := py_split r '.'
  let tld := (parts.getLast?).getD ""
  decide (parts.length ≥ 2) &&
  decide ((String.intercalate "." parts.dropLast).length ≥ 1) &&
  parts.dropLast.all (fun p => p.data.all isDomainChar) &&
  tld.data.all Char.isAlpha &&
  decide (tld.length ≥ 2)

/-- Recognizer for the full pattern
`^[a-zA-Z0-9._%+-]+@[a-zA-Z0-9.-]+\.[a-zA-Z]{2,}$` of
`DPOExtractionChain._is_valid_email`: exactly one `@` (neither character
class contains it), a non-empty local part over its class, and a matching
domain part. -/
def matches_email_pattern (s : String) : Bool :=
  match py_split s '@' with
  | [lpart, dpart] =>
    !(lpart == "") && lpart.data.all isLocalChar && matches_domain_part dpart
  | _ => false

/-- `DPOExtractionChain._is_valid_email`. -/
def is_valid_email (email : String) : Bool :=
  if email == "" || py_lower email == "none" then false
  else matches_email_pattern (py_strip email)

/-- Truncation applied by `DPOExtractionChain.extract_dpo_email` before
invoking the provider: `content[:8000] + "..."` beyond 8000 characters. -/
def truncate_content (content : String) : String :=
  if content.length > 8000 then py_take content 8000 ++ "..." else content

/-- Validation of the provider response in `extract_dpo_email`: strip it,
return it when it passes `_is_valid_email`, else `none`. -/
def dpo_validate (response : String) : Option String :=
  let extracted := py_strip response
  if is_valid_email extracted then some extracted else none

/-- `DPOExtractionChain.extract_dpo_email`: the provider is the
capability input (`none` models any provider failure, answered with
`none` by the enclosing `except`). -/
def extract_dpo_email (provider : String → Option String) (content : String) : Option String :=
  match provider (truncate_content content) with
  | some response => dpo_validate response
  | none => none

/-! ## Orchestrator (`app/services/email_processor.py`, `EmailProcessor`) -/

/-- The capability collaborators of `EmailProcessor`, as pure functions.
`vector_search = none` models an unavailable vector backend; `llm`
returning `none` models a failed LLM invocation (handled inside
`classify_email`). -/
structure Services where
  strip_html : String → String
  anonymize_text : String → String
  extract_metadata_fn : EmailInput → String → EmailMetadata
  vector_search : Option (String → EmailMetadata → List ChromaRow)
  llm : String → EmailMetadata → Option EmailClassificationResult
  extract_pii : String → ExtractedData
  scrape_dpo : String → Option String
  now : String

/-- One entry of the vector index as written by
`VectorStoreService.add_email_embedding` via
`EmailProcessor._store_in_vector_db`. -/
structure StoredEntry where
  text : String
  metadata : Option EmailMetadata
  category : EmailCategory
  business : BusinessEntity
  confidence : ℚ
deriving DecidableEq, Repr

/-- `EmailProcessor._strip_html_content`: strip the HTML body when one is
present (Python truthiness), else fall back to the plain-text body, then
truncate-and-mark beyond `max_email_length`. -/
def strip_html_content (S : Services) (email_input : EmailInput) : String :=
  let clean_text :=
    if truthyStr email_input.html_content then
      S.strip_html (email_input.html_content.getD "")
    else
      email_input.text_content.getD ""
  if clean_text.length > settings.max_email_length then
    py_take clean_text settings.max_email_length ++ "..."
  else
    clean_text

/-- `EmailProcessor._extract_user_data` (the PII capability result,
already typed). -/
def extract_user_data (S : Services) (text : String) : ExtractedData :=
  S.extract_pii text

/-- `EmailProcessor._process_confident_match` (its exception branch is
dead in the pure translation). -/
def process_confident_match (S : Services) (text : String)
    (metadata : EmailMetadata) (vector_match : VectorMatch) : ProcessedEmail :=
  { email_category := get_email_category_from_match vector_match
    business_entity := extract_business_entity_from_match vector_match
    data := extract_user_data S text
    confidence_score := vector_match.confidence_score
    metadata := some metadata }

/-- `EmailProcessor._process_llm_classification`: classify, then
overwrite the extracted-data field with a fresh per-message extraction. -/
def process_llm_classification (S : Services) (text : String)
    (metadata : EmailMetadata) : ProcessedEmail :=
  let processed_email := classify_email (S.llm text metadata) text metadata
  { processed_email with data := extract_user_data S text }

/-- `EmailProcessor._enhance_business_entity`: when the DPO email is
missing and a website is present, scrape it; backfill on success, leave
everything else untouched. -/
def enhance_business_entity (S : Services) (processed_email : ProcessedEmail) : ProcessedEmail :=
  match processed_email.business_entity.dpo_email, processed_email.business_entity.website with
  | none, some website =>
    match S.scrape_dpo website with
    | some dpo =>
      { processed_email with
          business_entity := { processed_email.business_entity with dpo_email := some dpo } }
    | none => processed_email
  | _, _ => processed_email

/-- `EmailProcessor._store_in_vector_db` /
`VectorStoreService.add_email_embedding`: append one entry built from the
anonymized text and the processed result. -/
def store_in_vector_db (index : List StoredEntry) (text : String)
    (processed_email : ProcessedEmail) : List StoredEntry :=
  index ++ [{ text := text
              metadata := processed_email.metadata
              category := processed_email.email_category
              business := processed_email.business_entity
              confidence := processed_email.confidence_score }]

/-- Steps 4-5 of `EmailProcessor.process_email`: vector lookup, then the
confidence branch (`if vector_match and is_confident_match(...)`). -/
def classification_stage (S : Services) (anonymized_text : String)
    (metadata : EmailMetadata) : ProcessedEmail :=
  match find_best_match S.vector_search anonymized_text metadata with
  | some m =>
    if is_confident_match m then
      process_confident_match S anonymized_text metadata m
    else
      process_llm_classification S anonymized_text metadata
  | none => process_llm_classification S anonymized_text metadata

/-- Steps 1-6 of `EmailProcessor.process_email`: the processed result just
before the write-back gate and the timestamp. -/
def final_result (S : Services) (email_input : EmailInput) : ProcessedEmail :=
  let clean_text := strip_html_content S email_input
  let anonymized_text := S.anonymize_text clean_text
  let metadata := S.extract_metadata_fn email_input clean_text
  enhance_business_entity S (classification_stage S anonymized_text metadata)

/-- `EmailProcessor.process_email`: the full pipeline, returning the
result together with the updated vector index (explicit state for the
write-back side effect of step 7). -/
def process_email (S : Services) (index : List StoredEntry)
    (email_input : EmailInput) : ProcessedEmail × List StoredEntry :=
  let anonymized_text := S.anonymize_text (strip_html_content S email_input)
  let processed1 := final_result S email_input
  let index2 :=
    if processed1.confidence_score > settings.confidence_threshold then
      store_in_vector_db index anonymized_text processed1
    else
      index
  ({ processed1 with processed_at := some S.now }, index2)

/-! ## Concrete inputs used by the closed witness statements -/

def demo_doc_metadata : DocMetadata :=
  { sender_domain := "shopify.com"
    email_category := "marketing"
    business_name := "Shopify" }

def demo_services : Services :=
  { strip_html := fun _ => ""
    anonymize_text := fun t => t
    extract_metadata_fn := fun _ _ => { sender_domain := "shopify.com" }
    vector_search := none
    llm := fun _ _ => none
    extract_pii := fun _ => {}
    scrape_dpo := fun _ => none
    now := "2026-10-12T00:00:00+00:00" }

def demo_email : EmailInput :=
  { from_email := "marketing@shopify.com"
    subject := "Sale"
    html_content := none
    text_content := some "Please unsubscribe if you no longer want 50% off" }

def demo_row (d : ℚ) : ChromaRow :=
  { id := "a"
    document := "d"
    metadata := demo_doc_metadata
    distance := d }

/-! ## Theorems -/

/-- Claim C1: for every candidate scored by the confidence matcher, the
confidence equals similarity times the domain weight; the weight is one
of 1.0, 0.8, 0.5; an empty query or candidate domain forces the default
0.5; otherwise the weight follows the precedence exact (1.0), then
similar (0.8), then default (0.5) on the lower-cased, stripped domains. -/
theorem calculate_confidence_score_spec (candidate : SearchHit) (qm : EmailMetadata) :
    ((calculate_confidence_score candidate qm).confidence_score =
       (calculate_confidence_score candidate qm).similarity_score *
         (calculate_confidence_score candidate qm).domain_weight)
  ∧ ((calculate_confidence_score candidate qm).domain_weight = 1 ∨
     (calculate_confidence_score candidate qm).domain_weight = 4/5 ∨
     (calculate_confidence_score candidate qm).domain_weight = 1/2)
  ∧ (qm.sender_domain = "" ∨ candidate.metadata.sender_domain = "" →
       (calculate_confidence_score candidate qm).domain_weight = 1/2)
  ∧ (qm.sender_domain ≠ "" → candidate.metadata.sender_domain ≠ "" →
      ((py_strip (py_lower qm.sender_domain) =
          py_strip (py_lower candidate.metadata.sender_domain) →
         (calculate_confidence_score candidate qm).domain_weight = 1)
     ∧ (py_strip (py_lower qm.sender_domain) ≠
          py_strip (py_lower candidate.metadata.sender_domain) →
        are_domains_similar (py_strip (py_lower qm.sender_domain))
          (py_strip (py_lower candidate.metadata.sender_domain)) = true →
         (calculate_confidence_score candidate qm).domain_weight = 4/5)
     ∧ (py_strip (py_lower qm.sender_domain) ≠
          py_strip (py_lower candidate.metadata.sender_domain) →
        are_domains_similar (py_strip (py_lower qm.sender_domain))
          (py_strip (py_lower candidate.metadata.sender_domain)) = false →
         (calculate_confidence_score candidate qm).domain_weight = 1/2))) := by
  unfold calculate_confidence_score
  dsimp only
  refine ⟨rfl, ?_, fun h => ?_, fun hq hc => ⟨fun he => ?_, fun hne hsim => ?_, fun hne hsim => ?_⟩⟩
  · unfold calculate_domain_weight
    dsimp only
    split_ifs with h1 h2 h3
    · right; right; rfl
    · left; rfl
    · right; left; rfl
    · right; right; rfl
  · unfold calculate_domain_weight
    rw [if_pos h]
    rfl
  · unfold calculate_domain_weight
    rw [if_neg (by tauto)]
    dsimp only
    rw [if_pos he]
    rfl
  · unfold calculate_domain_weight
    rw [if_neg (by tauto)]
    dsimp only
    rw [if_neg hne, if_pos hsim]
    rfl
  · unfold calculate_domain_weight
    rw [if_neg (by tauto)]
    dsimp only
    rw [if_neg hne, if_neg (by simp [hsim])]
    rfl

/-- Witness for C1: an exact domain match gets weight 1.0. -/
theorem calculate_confidence_score_spec_witness :
    (calculate_confidence_score
       { id := "a", document := "d", metadata := demo_doc_metadata,
         distance := 1/10, similarity := 9/10 }
       { sender_domain := "shopify.com" }).domain_weight = 1 := by
  have h := (calculate_confidence_score_spec
    { id := "a", document := "d", metadata := demo_doc_metadata,
      distance := 1/10, similarity := 9/10 }
    { sender_domain := "shopify.com" }).2.2.2 (by decide) (by decide)
  exact h.1 (by decide)

/-- Claim C3: `is_confident_match` is the strict threshold predicate:
true exactly when the confidence is strictly above the configured
threshold, hence false at the threshold itself; the default threshold is
0.85. -/
theorem is_confident_match_spec (vm : VectorMatch) :
    (is_confident_match vm = true ↔
       vm.confidence_score > settings.confidence_threshold)
  ∧ (vm.confidence_score = settings.confidence_threshold →
       is_confident_match vm = false)
  ∧ settings.confidence_threshold = 17/20 := by
  refine ⟨by simp [is_confident_match], fun h => ?_, rfl⟩
  simp [is_confident_match, h]

/-- Witness for C3: at exactly the threshold the predicate is false. -/
theorem is_confident_match_spec_witness :
    is_confident_match
      { similarity_score := 1, domain_weight := 1, confidence_score := 17/20,
        metadata := demo_doc_metadata } = false := by
  exact (is_confident_match_spec _).2.1 rfl

/-- Claim C4: the heuristic fallback classifier picks the first matching
keyword bucket in the fixed order marketing, transactional, survey,
customer_support, defaulting to personal; in particular any text
containing both "unsubscribe" and "invoice" classifies as marketing. -/
theorem heuristic_classification_spec (content : String) (metadata : EmailMetadata) :
    (contains_any (py_lower content) marketing_keywords = true →
       heuristic_classification content metadata = .marketing)
  ∧ (contains_any (py_lower content) marketing_keywords = false →
     contains_any (py_lower content) transactional_keywords = true →
       heuristic_classification content metadata = .transactional)
  ∧ (contains_any (py_lower content) marketing_keywords = false →
     contains_any (py_lower content) transactional_keywords = false →
     contains_any (py_lower content) survey_keywords = true →
       heuristic_classification content metadata = .survey)
  ∧ (contains_any (py_lower content) marketing_keywords = false →
     contains_any (py_lower content) transactional_keywords = false →
     contains_any (py_lower content) survey_keywords = false →
     contains_any (py_lower content) support_keywords = true →
       heuristic_classification content metadata = .customer_support)
  ∧ (contains_any (py_lower content) marketing_keywords = false →
     contains_any (py_lower content) transactional_keywords = false →
     contains_any (py_lower content) survey_keywords = false →
     contains_any (py_lower content) support_keywords = false →
       heuristic_classification content metadata = .personal)
  ∧ (strContains (py_lower content) "unsubscribe" = true →
     strContains (py_lower content) "invoice" = true →
       heuristic_classification content metadata = .marketing) := by
  refine ⟨fun h1 => ?_, fun h1 h2 => ?_, fun h1 h2 h3 => ?_,
          fun h1 h2 h3 h4 => ?_, fun h1 h2 h3 h4 => ?_, fun h1 _ => ?_⟩
  · simp [heuristic_classification, h1]
  · simp [heuristic_classification, h1, h2]
  · simp [heuristic_classification, h1, h2, h3]
  · simp [heuristic_classification, h1, h2, h3, h4]
  · simp [heuristic_classification, h1, h2, h3, h4]
  · have hm : contains_any (py_lower content) marketing_keywords = true := by
      simp only [contains_any, List.any_eq_true]
      exact ⟨"unsubscribe", by decide, h1⟩
    simp [heuristic_classification, hm]

/-- Witness for C4: a text with both "unsubscribe" and "invoice" is
classified as marketing. -/
theorem heuristic_classification_spec_witness :
    heuristic_classification "Please unsubscribe. Your invoice is attached."
      { sender_domain := "x.com" } = .marketing := by
  exact (heuristic_classification_spec "Please unsubscribe. Your invoice is attached."
    { sender_domain := "x.com" }).2.2.2.2.2 (by decide) (by decide)

/-- Claim C6: when the LLM invocation fails, the fallback result names
the business after the capitalized second-to-last label of the sender
domain (or "Unknown Company" below two labels), takes the first metadata
URL as website (none when there is none), and carries confidence 0.3. -/
theorem classify_email_fallback_spec (content : String) (metadata : EmailMetadata) :
    ((py_split metadata.sender_domain '.').length ≥ 2 →
       (classify_email none content metadata).business_entity.name =
         py_capitalize ((py_split metadata.sender_domain '.').getD
           ((py_split metadata.sender_domain '.').length - 2) ""))
  ∧ ((py_split metadata.sender_domain '.').length < 2 →
       (classify_email none content metadata).business_entity.name = "Unknown Company")
  ∧ (classify_email none content metadata).business_entity.website = metadata.urls.head?
  ∧ (classify_email none content metadata).confidence_score = 3/10 := by
  refine ⟨fun h => ?_, fun h => ?_, rfl, rfl⟩
  · simp [classify_email, create_fallback_result, extract_company_name_heuristic, h]
  · have hn : ¬ ((py_split metadata.sender_domain '.').length ≥ 2) := by omega
    simp [classify_email, create_fallback_result, extract_company_name_heuristic, hn]

/-- Witness for C6: sender domain shopify.com gives business name
"Shopify". -/
theorem classify_email_fallback_spec_witness :
    (classify_email none "hello" { sender_domain := "shopify.com" }).business_entity.name =
      "Shopify" := by
  have h := (classify_email_fallback_spec "hello" { sender_domain := "shopify.com" }).1
    (by decide)
  exact h.trans (by decide)

/-- Claim C7: the DPO chain invokes the provider only on the content
truncated at the 8000-character cap (so two long contents agreeing on
their first 8000 characters are indistinguishable to it), returns none on
provider failure, gates the response through the email validator, and the
validator rejects the empty string, the literal "none" in any case, and
any pattern mismatch. -/
theorem extract_dpo_email_spec (provider : String → Option String) (content : String) :
    (∀ c1 c2 : String, c1.length > 8000 → c2.length > 8000 →
       py_take c1 8000 = py_take c2 8000 →
       extract_dpo_email provider c1 = extract_dpo_email provider c2)
  ∧ (provider (truncate_content content) = none →
       extract_dpo_email provider content = none)
  ∧ (∀ r, provider (truncate_content content) = some r →
       extract_dpo_email provider content =
         (if is_valid_email (py_strip r) then some (py_strip r) else none))
  ∧ (∀ s : String,
       s = "" ∨ py_lower s = "none" ∨ matches_email_pattern (py_strip s) = false →
       is_valid_email s = false) := by
  refine ⟨fun c1 c2 h1 h2 he => ?_, fun h => ?_, fun r h => ?_, fun s hs => ?_⟩
  · simp only [extract_dpo_email, truncate_content, if_pos h1, if_pos h2, he]
  · simp [extract_dpo_email, h]
  · simp [extract_dpo_email, h, dpo_validate]
  · rcases hs with h | h | h
    · simp [is_valid_email, h]
    · simp [is_valid_email, h]
    · simp [is_valid_email, h, ite_self]

/-- Witness for C7: a provider answering the literal " None " makes the
chain return none. -/
theorem extract_dpo_email_spec_witness :
    extract_dpo_email (fun _ => some " None ") "policy text" = none := by
  have h := (extract_dpo_email_spec (fun _ => some " None ") "policy text").2.2.1
    " None " rfl
  rw [h]
  decide

/-- Helper for C8: one direction of the symmetry of
`are_domains_similar`. -/
theorem are_domains_similar_of (a b : String) (h : are_domains_similar a b = true) :
    are_domains_similar b a = true := by
  simp only [are_domains_similar, Bool.or_eq_true, beq_iff_eq, List.any_eq_true,
    Bool.and_eq_true] at h ⊢
  rcases h with (h | h | h) | ⟨p, hp, h | h⟩
  · exact Or.inl (Or.inl (Eq.symm h))
  · exact Or.inl (Or.inr (Or.inr h))
  · exact Or.inl (Or.inr (Or.inl h))
  · exact Or.inr ⟨p, hp, Or.inr h⟩
  · exact Or.inr ⟨p, hp, Or.inl h⟩

/-- Claim C8: the domain-similarity relation of the confidence matcher is
symmetric in its two domain arguments. -/
theorem are_domains_similar_symm (a b : String) :
    are_domains_similar a b = are_domains_similar b a := by
  cases ha : are_domains_similar a b with
  | true => exact (are_domains_similar_of a b ha).symm
  | false =>
    cases hb : are_domains_similar b a with
    | true =>
      have hcontra := are_domains_similar_of b a hb
      rw [ha] at hcontra
      simp at hcontra
    | false => rfl

/-- Helper for C5: the element Python's keyed `max` picks is one of the
scanned elements. -/
theorem pick_best_mem (h : VectorMatch) (t : List VectorMatch) :
    pick_best h t ∈ h :: t := by
  induction t generalizing h with
  | nil => simp [pick_best]
  | cons x xs ih =>
    have step : pick_best h (x :: xs) =
        pick_best (if x.confidence_score > h.confidence_score then x else h) xs := rfl
    rw [step]
    rcases List.mem_cons.mp
        (ih (if x.confidence_score > h.confidence_score then x else h)) with hm | hm
    · rw [hm]
      split_ifs with hc
      · exact List.mem_cons_of_mem h (List.mem_cons_self x xs)
      · exact List.mem_cons_self h (x :: xs)
    · exact List.mem_cons_of_mem h (List.mem_cons_of_mem x hm)

/-- Helper for C5: the element Python's keyed `max` picks has maximal
confidence among the scanned elements. -/
theorem pick_best_le (h : VectorMatch) (t : List VectorMatch) :
    ∀ x ∈ h :: t, x.confidence_score ≤ (pick_best h t).confidence_score := by
  induction t generalizing h with
  | nil =>
    intro x hx
    rcases List.mem_cons.mp hx with hx | hx
    · rw [hx]; simp [pick_best]
    · simp at hx
  | cons y ys ih =>
    intro x hx
    have step : pick_best h (y :: ys) =
        pick_best (if y.confidence_score > h.confidence_score then y else h) ys := rfl
    rw [step]
    have hhb : h.confidence_score ≤
        (if y.confidence_score > h.confidence_score then y else h).confidence_score := by
      split_ifs with hc
      · exact le_of_lt hc
      · exact le_refl _
    have hyb : y.confidence_score ≤
        (if y.confidence_score > h.confidence_score then y else h).confidence_score := by
      split_ifs with hc
      · exact le_refl _
      · exact not_lt.mp hc
    have hrec := ih (if y.confidence_score > h.confidence_score then y else h)
    have hbp := hrec _ (List.mem_cons_self _ ys)
    rcases List.mem_cons.mp hx with hx1 | hx2
    · rw [hx1]; exact le_trans hhb hbp
    · rcases List.mem_cons.mp hx2 with hx3 | hx4
      · rw [hx3]; exact le_trans hyb hbp
      · exact hrec x (List.mem_cons_of_mem _ hx4)

/-- Claim C5: `find_best_match` returns none when the vector store is
unavailable or the search yields no candidates, and otherwise returns a
scored candidate of maximal confidence; in the pure embedding it is total
(the source's catch-all exception handler maps any failure to none). -/
theorem find_best_match_spec
    (vector_store : Option (String → EmailMetadata → List ChromaRow))
    (email_content : String) (metadata : EmailMetadata) :
    (vector_store = none → find_best_match vector_store email_content metadata = none)
  ∧ (∀ query_rows, vector_store = some query_rows →
       query_rows email_content metadata = [] →
       find_best_match vector_store email_content metadata = none)
  ∧ (∀ query_rows, vector_store = some query_rows →
       query_rows email_content metadata ≠ [] →
       ∃ m, find_best_match vector_store email_content metadata = some m ∧
         m ∈ (search_results_to_hits (query_rows email_content metadata)).map
               (fun c => calculate_confidence_score c metadata) ∧
         ∀ x ∈ (search_results_to_hits (query_rows email_content metadata)).map
               (fun c => calculate_confidence_score c metadata),
           x.confidence_score ≤ m.confidence_score) := by
  refine ⟨fun h => by rw [h]; rfl, fun q hq hempty => ?_, fun q hq hne => ?_⟩
  · rw [hq]
    simp [find_best_match, search_results_to_hits, hempty]
  · rw [hq]
    simp only [find_best_match]
    rcases hlist : (search_results_to_hits (q email_content metadata)).map
        (fun c => calculate_confidence_score c metadata) with _ | ⟨hd, tl⟩
    · exfalso
      apply hne
      have h1 : search_results_to_hits (q email_content metadata) = [] :=
        List.map_eq_nil_iff.mp hlist
      have h2 : (q email_content metadata).map row_to_hit = [] := h1
      exact List.map_eq_nil_iff.mp h2
    · exact ⟨pick_best hd tl, rfl, pick_best_mem hd tl,
        fun x hx => pick_best_le hd tl x hx⟩

/-- Witness for C5: an unavailable vector store yields none. -/
theorem find_best_match_spec_witness :
    find_best_match none "query" { sender_domain := "shopify.com" } = none := by
  exact (find_best_match_spec none "query" { sender_domain := "shopify.com" }).1 rfl

/-- Counterexample for C9: the claim that every candidate's similarity
lies in [0,1] fails: a ChromaDB row at distance 2 (possible under the
collection's default squared-L2 metric) is mapped by
`search_similar_emails` to similarity 1 - 2 = -1, which is negative. -/
theorem search_similarity_range_counterexample :
    ¬ (0 ≤ (row_to_hit (demo_row 2)).similarity ∧
       (row_to_hit (demo_row 2)).similarity ≤ 1) := by
  have hs : (row_to_hit (demo_row 2)).similarity = 1 - 2 := rfl
  rw [hs]
  norm_num

/-- Claim C9 (amended): every candidate produced by the vector search has
similarity exactly 1 - distance; it equals 1 exactly for distance 0 (an
identical embedding), is at most 1 whenever the reported distance is
nonnegative, and lies in [0,1] if and only if the distance lies in [0,1]
(the code never clamps, so distances above 1 yield negative
similarities). -/
theorem search_similarity_amended (r : ChromaRow) :
    (row_to_hit r).similarity = 1 - r.distance
  ∧ (0 ≤ r.distance → (row_to_hit r).similarity ≤ 1)
  ∧ ((row_to_hit r).similarity = 1 ↔ r.distance = 0)
  ∧ (0 ≤ (row_to_hit r).similarity ∧ (row_to_hit r).similarity ≤ 1 ↔
       0 ≤ r.distance ∧ r.distance ≤ 1) := by
  have hs : (row_to_hit r).similarity = 1 - r.distance := rfl
  rw [hs]
  refine ⟨rfl, fun h => by linarith, ?_, ?_⟩
  · constructor
    · intro h; linarith
    · intro h; rw [h]; ring
  · constructor
    · rintro ⟨h1, h2⟩
      constructor <;> linarith
    · rintro ⟨h1, h2⟩
      constructor <;> linarith

/-- Witness for C9 (amended): a row at distance 0 has similarity at
most 1. -/
theorem search_similarity_amended_witness :
    (row_to_hit (demo_row 0)).similarity ≤ 1 := by
  exact (search_similarity_amended (demo_row 0)).2.1 le_rfl

/-- Claim C2: the orchestrator writes the processed result (anonymized
text, metadata, category, business entity, confidence) into the vector
index exactly when the final confidence strictly exceeds the configured
threshold; at or below the threshold the index is returned unchanged. -/
theorem process_email_write_back (S : Services) (index : List StoredEntry)
    (email_input : EmailInput) :
    ((process_email S index email_input).1.confidence_score > settings.confidence_threshold →
       (process_email S index email_input).2 =
         index ++ [{ text := S.anonymize_text (strip_html_content S email_input)
                     metadata := (process_email S index email_input).1.metadata
                     category := (process_email S index email_input).1.email_category
                     business := (process_email S index email_input).1.business_entity
                     confidence := (process_email S index email_input).1.confidence_score }])
  ∧ ((process_email S index email_input).1.confidence_score ≤ settings.confidence_threshold →
       (process_email S index email_input).2 = index) := by
  constructor
  · intro h
    have h1 : (final_result S email_input).confidence_score > settings.confidence_threshold := h
    simp only [process_email, if_pos h1, store_in_vector_db]
  · intro h
    have h1 : ¬ ((final_result S email_input).confidence_score > settings.confidence_threshold) :=
      not_lt.mpr h
    simp only [process_email, if_neg h1]

/-- Witness for C2: a run whose final confidence is the 0.3 fallback does
not grow an empty index. -/
theorem process_email_write_back_witness :
    (process_email demo_services [] demo_email).2 = [] := by
  refine (process_email_write_back demo_services [] demo_email).2 ?_
  have h : (process_email demo_services [] demo_email).1.confidence_score = 3/10 := rfl
  rw [h]
  norm_num [settings]

end EmailApp
